import Mathlib

/-!
Shallow embedding of the witrium-js client core (src/src/client.ts,
src/src/constants.ts, src/src/types.ts) and proofs about its polling
state machine, session-context management, status model and wire-boundary
field-name translation.

Conventions of the embedding:
* TypeScript strings become `String`, numbers used as millisecond durations
  become `Int` (they are compared with `<` and `> 0` only), optional fields
  become `Option`.
* The remote service is modelled as an environment (`PollEnv`): the snapshot
  returned by the i-th `getWorkflowResults` fetch, and the elapsed wall-clock
  time `Date.now() - startTime` observed at the i-th loop-condition check.
* Each `await new Promise(setTimeout ...)` suspension and each fetch is
  recorded as an `Event`, so "performs no further fetch / sleep" is a
  statement about the produced event list.
* JavaScript `timeout / 1000` inside error messages renders a float; that
  rendering is abstracted as an explicit `timeoutSecondsText : String`
  argument (the claims never inspect the numeric text).
* Loops are given a fuel argument; `none` means the loop was still running
  after `fuel` iterations.  All claims are about runs that stop.
-/

namespace Witrium

/-! ## Status model — src/src/constants.ts -/

/-- `WorkflowRunStatus.STATUS_NAMES` (constants.ts lines 10-16). -/
def STATUS_NAMES : List (String × String) :=
  [("P", "pending"), ("R", "running"), ("C", "completed"),
   ("F", "failed"), ("X", "cancelled")]

/-- `WorkflowRunStatus.TERMINAL_STATUSES` (constants.ts line 9). -/
def TERMINAL_STATUSES : List String := ["C", "F", "X"]

/-- `WorkflowRunStatus.getStatusName` (constants.ts lines 17-19):
`this.STATUS_NAMES[statusCode] || statusCode` — a missing key yields
`undefined`, which is falsy, so the raw code is returned.  (No display name
in the table is falsy, so `getD` is an exact translation.) -/
def getStatusName (statusCode : String) : String :=
  (STATUS_NAMES.lookup statusCode).getD statusCode

/-- `WorkflowRunStatus.TERMINAL_STATUSES.includes(status)` as used by the
polling loops (client.ts lines 175, 227). -/
def isTerminal (status : String) : Bool := TERMINAL_STATUSES.contains status

/-- `AgentExecutionStatus.COMPLETED` (constants.ts line 25). -/
def AgentExecutionCompleted : String := "C"

/-! ## Data model — src/src/types.ts -/

/-- `AgentExecution` (types.ts lines 48-55); the result payload fields are
irrelevant to every claim and omitted. -/
structure AgentExecution where
  status : String
  instructionOrder : Int
  instruction : String
deriving Repr, DecidableEq

/-- `WorkflowRunResult` (types.ts lines 67-78); result payload / format
fields omitted (no claim mentions them). -/
structure WorkflowRunResult where
  workflowId : String
  runId : String
  status : String
  startedAt : Option String := none
  completedAt : Option String := none
  message : Option String := none
  executions : Option (List AgentExecution) := none
  errorMessage : Option String := none
deriving Repr, DecidableEq

/-! ## Field-name translation — src/src/client.ts lines 60-82 -/

/-- The character class `[a-z]` of the regex in `_toCamelCase`. -/
def jsLowerAZ (c : Char) : Bool := 'a' ≤ c && c ≤ 'z'

/-- `str.replace(/_([a-z])/g, (_, letter) => letter.toUpperCase())`
(client.ts line 61) on the character list: scanning left to right, an
underscore directly followed by a lowercase ASCII letter is replaced by
that letter uppercased; anything else is copied. -/
def toCamelCaseAux : List Char → List Char
  | [] => []
  | '_' :: c :: rest =>
    if jsLowerAZ c then c.toUpper :: toCamelCaseAux rest
    else '_' :: toCamelCaseAux (c :: rest)
  | c :: rest => c :: toCamelCaseAux rest

/-- `_toCamelCase` (client.ts lines 60-62). -/
def toCamelCase (s : String) : String := ⟨toCamelCaseAux s.toList⟩

/-- Modelled from the spec: the camelCase → snake_case direction of the
"systematic naming-convention translation applied in both directions at the
boundary".  The source applies this direction only through hand-written
key pairs (e.g. `payload.use_states = options.useStates`, client.ts lines
94-109); this function is the systematic mapping the spec describes, to be
compared against those hand-written pairs. -/
def toSnakeCaseAux : List Char → List Char
  | [] => []
  | c :: rest =>
    if 'A' ≤ c && c ≤ 'Z' then '_' :: c.toLower :: toSnakeCaseAux rest
    else c :: toSnakeCaseAux rest

/-- String version of `toSnakeCaseAux`. -/
def toSnakeCase (s : String) : String := ⟨toSnakeCaseAux s.toList⟩

/-- Every (in-memory camelCase, wire snake_case) field-name pair of the
request and response documents: request payload keys hand-written in
`runWorkflow` (client.ts 95-109), `runTalent` (279-287) and
`createBrowserSession` (308-316), and the response fields of the interfaces
in types.ts (camelCase in memory, snake_case on the wire). -/
def fieldNamePairs : List (String × String) :=
  [("args", "args"), ("files", "files"),
   ("useStates", "use_states"), ("preserveState", "preserve_state"),
   ("noIntelligence", "no_intelligence"), ("recordSession", "record_session"),
   ("browserSessionId", "browser_session_id"),
   ("skipGotoUrlInstruction", "skip_goto_url_instruction"),
   ("provider", "provider"), ("useProxy", "use_proxy"),
   ("proxyCountry", "proxy_country"), ("proxyCity", "proxy_city"),
   ("workflowId", "workflow_id"), ("runId", "run_id"),
   ("status", "status"), ("startedAt", "started_at"),
   ("completedAt", "completed_at"), ("message", "message"),
   ("executions", "executions"), ("result", "result"),
   ("resultFormat", "result_format"), ("errorMessage", "error_message"),
   ("instructionOrder", "instruction_order"), ("instruction", "instruction"),
   ("instructionId", "instruction_id"), ("uuid", "uuid"),
   ("name", "name"), ("description", "description"),
   ("sessionId", "session_id"), ("workflow", "workflow"),
   ("runType", "run_type"), ("triggeredBy", "triggered_by"),
   ("sessionActive", "session_active"), ("isBusy", "is_busy"),
   ("userManaged", "user_managed"), ("currentRunType", "current_run_type"),
   ("currentRunId", "current_run_id"), ("createdAt", "created_at"),
   ("lastActivityAt", "last_activity_at"), ("sessions", "sessions"),
   ("totalCount", "total_count"), ("filename", "filename"),
   ("data", "data")]

/-! ## Request payloads — src/src/client.ts lines 84-122 and 268-300 -/

/-- A value of the `args` map: `Record<string, string | number>`
(types.ts line 10). -/
inductive ArgValue where
  | str (s : String)
  | num (n : Int)
deriving Repr, DecidableEq

/-- `FileUpload` (types.ts lines 4-7). -/
structure FileUpload where
  filename : String
  data : String
deriving Repr, DecidableEq

/-- A value placed in an outgoing request payload. -/
inductive PayloadValue where
  | argsVal (a : List (String × ArgValue))
  | filesVal (fs : List FileUpload)
  | strListVal (ss : List String)
  | strVal (s : String)
  | boolVal (b : Bool)
deriving Repr, DecidableEq

/-- `WorkflowRunOptions` (types.ts lines 9-18). -/
structure WorkflowRunOptions where
  args : Option (List (String × ArgValue)) := none
  files : Option (List FileUpload) := none
  useStates : Option (List String) := none
  preserveState : Option String := none
  noIntelligence : Option Bool := none
  recordSession : Option Bool := none
  browserSessionId : Option String := none
  skipGotoUrlInstruction : Option Bool := none

/-- `TalentRunOptions` (types.ts lines 20-26). -/
structure TalentRunOptions where
  args : Option (List (String × ArgValue)) := none
  files : Option (List FileUpload) := none
  useStates : Option (List String) := none
  preserveState : Option String := none
  browserSessionId : Option String := none

/-- One `if (options.x !== undefined) payload.key = options.x` line of the
payload builders: a present option contributes one key/value pair, an
absent one contributes nothing. -/
def optField {α : Type} (key : String) (f : α → PayloadValue) :
    Option α → List (String × PayloadValue)
  | some x => [(key, f x)]
  | none => []

/-- The payload built by `runWorkflow` (client.ts lines 90-109): the
injected id is `options.browserSessionId ?? this._activeSessionId` (line
91-92), and the pair is added only when that value is neither undefined nor
null (lines 106-107) — both map to `Option.orElse` / presence here. -/
def buildWorkflowRunPayload (options : WorkflowRunOptions)
    (activeSessionId : Option String) : List (String × PayloadValue) :=
  let browserSessionId := options.browserSessionId.orElse fun _ => activeSessionId
  optField "args" PayloadValue.argsVal options.args ++
  optField "files" PayloadValue.filesVal options.files ++
  optField "use_states" PayloadValue.strListVal options.useStates ++
  optField "preserve_state" PayloadValue.strVal options.preserveState ++
  optField "no_intelligence" PayloadValue.boolVal options.noIntelligence ++
  optField "record_session" PayloadValue.boolVal options.recordSession ++
  optField "browser_session_id" PayloadValue.strVal browserSessionId ++
  optField "skip_goto_url_instruction" PayloadValue.boolVal
    options.skipGotoUrlInstruction

/-- The payload built by `runTalent` (client.ts lines 274-287), with the
same session-injection rule (lines 275-276, 286-287). -/
def buildTalentRunPayload (options : TalentRunOptions)
    (activeSessionId : Option String) : List (String × PayloadValue) :=
  let browserSessionId := options.browserSessionId.orElse fun _ => activeSessionId
  optField "args" PayloadValue.argsVal options.args ++
  optField "files" PayloadValue.filesVal options.files ++
  optField "use_states" PayloadValue.strListVal options.useStates ++
  optField "preserve_state" PayloadValue.strVal options.preserveState ++
  optField "browser_session_id" PayloadValue.strVal browserSessionId

/-! ## Polling environment and events -/

/-- One observable suspension or request of a polling operation. -/
inductive Event where
  | fetch (i : Nat)
  | sleep (ms : Int)
deriving Repr, DecidableEq

/-- The remote service and the clock, as the polling loops observe them:
`snapshots i` is the snapshot returned by the i-th `getWorkflowResults`
call, and `elapsedAt i` the value of `Date.now() - startTime` read at the
i-th loop-condition check.  `startTime` is recorded (client.ts line 201)
after the optional `minWaitTime` sleep (lines 197-199), so `elapsedAt`
never includes that sleep. -/
structure PollEnv where
  snapshots : Nat → WorkflowRunResult
  elapsedAt : Nat → Int

/-- Number of `fetch` events in an event list. -/
def fetchCount (events : List Event) : Nat :=
  events.countP fun e => match e with | Event.fetch _ => true | _ => false

/-- Number of `sleep` events in an event list. -/
def sleepCount (events : List Event) : Nat :=
  events.countP fun e => match e with | Event.sleep _ => true | _ => false

/-- The events of `k` completed loop iterations starting at fetch index
`i`: each fetches once and then sleeps for the polling interval. -/
def pollSeg (pollingInterval : Int) : Nat → Nat → List Event
  | _, 0 => []
  | i, k + 1 =>
    Event.fetch i :: Event.sleep pollingInterval :: pollSeg pollingInterval (i + 1) k

/-- The snapshots of fetches `i, i+1, …, i+k-1`. -/
def snapWindow (env : PollEnv) : Nat → Nat → List WorkflowRunResult
  | _, 0 => []
  | i, k + 1 => env.snapshots i :: snapWindow env (i + 1) k

/-! ## waitUntilState — src/src/client.ts lines 187-250 -/

/-- `checkAllExecutionsCompleted` (client.ts lines 203-213): false when the
snapshot has no execution list or an empty one, else whether the last
element's status is `AgentExecutionStatus.COMPLETED`
(`executions[executions.length - 1]` is `getLast?` of a non-empty list). -/
def checkAllExecutionsCompleted (results : WorkflowRunResult) : Bool :=
  match results.executions with
  | none => false
  | some es =>
    match es.getLast? with
    | none => false
    | some last => last.status == AgentExecutionCompleted

/-- `statusReached && allExecutionsDone` (client.ts lines 218-222). -/
def waitSuccess (targetStatus : String) (allInstructionsExecuted : Bool)
    (results : WorkflowRunResult) : Bool :=
  let statusReached := results.status == targetStatus
  let allExecutionsDone :=
    !allInstructionsExecuted || checkAllExecutionsCompleted results
  statusReached && allExecutionsDone

/-- The terminal-mismatch condition (client.ts lines 226-229). -/
def waitMismatch (targetStatus : String) (results : WorkflowRunResult) : Bool :=
  isTerminal results.status && results.status != targetStatus

/-- The terminal-mismatch error message (client.ts lines 230-236). -/
def terminalMismatchMessage (currentStatus targetStatus : String) : String :=
  "Workflow run reached terminal status '" ++ getStatusName currentStatus ++
    "' before reaching target status '" ++ getStatusName targetStatus ++ "'"

/-- `conditionMsg` of the timeout error (client.ts lines 242-246). -/
def timeoutConditionMsg (targetStatus : String)
    (allInstructionsExecuted : Bool) : String :=
  let base := "status '" ++ getStatusName targetStatus ++ "'"
  if allInstructionsExecuted then base ++ " and all instructions executed"
  else base

/-- The timeout error message of `waitUntilState` (client.ts lines
247-249); `timeoutSecondsText` abstracts the float rendering of
`timeout / 1000`. -/
def waitTimeoutMessage (targetStatus : String) (allInstructionsExecuted : Bool)
    (timeoutSecondsText : String) : String :=
  "Workflow run did not reach " ++
    timeoutConditionMsg targetStatus allInstructionsExecuted ++
    " within " ++ timeoutSecondsText ++ " seconds"

/-- How a `waitUntilState` run ends. -/
inductive WaitOutcome where
  | success (snapshot : WorkflowRunResult)
  | terminalMismatch (message : String)
  | timedOut (message : String)
deriving Repr, DecidableEq

/-- The `while (Date.now() - startTime < timeout)` loop of `waitUntilState`
(client.ts lines 215-249), step-indexed: at check `i` the loop either exits
by timeout (line 247), fetches snapshot `i` and returns it on success (line
222-224), throws on terminal mismatch (lines 226-237), or sleeps
`pollingInterval` (line 239) and continues at `i + 1`.  The returned event
list records the fetches and sleeps performed; `none` means the loop was
still running after `fuel` iterations. -/
def waitLoop (targetStatus : String) (allInstructionsExecuted : Bool)
    (timeout pollingInterval : Int) (timeoutSecondsText : String)
    (env : PollEnv) : Nat → Nat → Option (List Event × WaitOutcome)
  | _, 0 => none
  | i, fuel + 1 =>
    if env.elapsedAt i < timeout then
      let results := env.snapshots i
      if waitSuccess targetStatus allInstructionsExecuted results then
        some ([Event.fetch i], WaitOutcome.success results)
      else if waitMismatch targetStatus results then
        some ([Event.fetch i],
          WaitOutcome.terminalMismatch
            (terminalMismatchMessage results.status targetStatus))
      else
        (waitLoop targetStatus allInstructionsExecuted timeout pollingInterval
            timeoutSecondsText env (i + 1) fuel).map
          fun r => (Event.fetch i :: Event.sleep pollingInterval :: r.1, r.2)
    else
      some ([],
        WaitOutcome.timedOut
          (waitTimeoutMessage targetStatus allInstructionsExecuted
            timeoutSecondsText))

/-- `WaitUntilStateOptions` (types.ts lines 28-33). -/
structure WaitUntilStateOptions where
  allInstructionsExecuted : Option Bool := none
  minWaitTime : Option Int := none
  pollingInterval : Option Int := none
  timeout : Option Int := none

/-- Result of a `waitUntilState` call: the sleeps performed before the
start time was recorded, and the loop's run. -/
structure WaitUntilStateRun where
  preSleeps : List Int
  run : Option (List Event × WaitOutcome)
deriving DecidableEq

/-- `waitUntilState` (client.ts lines 187-250): defaults applied (lines
192-195), then — in this order — the unconditional `minWaitTime` sleep when
positive (lines 197-199), the recording of the start time (line 201), and
the polling loop. -/
def waitUntilState (targetStatus : String) (options : WaitUntilStateOptions)
    (timeoutSecondsText : String) (env : PollEnv) (fuel : Nat) :
    WaitUntilStateRun :=
  let allInstructionsExecuted := options.allInstructionsExecuted.getD false
  let minWaitTime := options.minWaitTime.getD 0
  let pollingInterval := options.pollingInterval.getD 2000
  let timeout := options.timeout.getD 60000
  { preSleeps := if minWaitTime > 0 then [minWaitTime] else []
    run := waitLoop targetStatus allInstructionsExecuted timeout
      pollingInterval timeoutSecondsText env 0 fuel }

/-! ## runWorkflowAndWait — src/src/client.ts lines 140-185 -/

/-- How a `runWorkflowAndWait` run ends: the final snapshot alone, the
accumulated snapshot sequence when `returnIntermediateResults` is set
(line 176), or the timeout error (lines 182-184). -/
inductive RunAndWaitOutcome where
  | single (result : WorkflowRunResult)
  | intermediate (results : List WorkflowRunResult)
  | timedOut (message : String)
deriving Repr, DecidableEq

/-- The timeout error message of `runWorkflowAndWait` (client.ts lines
182-184); `timeoutSecondsText` abstracts the float rendering of
`timeout / 1000`. -/
def runAndWaitTimeoutMessage (timeoutSecondsText : String) : String :=
  "Workflow execution timed out after " ++ timeoutSecondsText ++ " seconds"

/-- The `while (Date.now() - startTime < timeout)` loop of
`runWorkflowAndWait` (client.ts lines 164-184), step-indexed: at check `i`
the loop either exits by timeout, or fetches snapshot `i`, appends it to
`intermediateResults` when the flag is set (lines 167-169), invokes
`onProgress` with it (lines 171-173, recorded in the `progress`
accumulator), returns when its status is terminal (lines 175-177), and
otherwise sleeps `pollingInterval` (line 179) and continues.  The result is
(events performed, snapshots passed to onProgress in order, outcome);
`none` means the loop was still running after `fuel` iterations. -/
def runAndWaitLoop (returnIntermediateResults : Bool)
    (timeout pollingInterval : Int) (timeoutSecondsText : String)
    (env : PollEnv) :
    Nat → List WorkflowRunResult → List WorkflowRunResult → Nat →
    Option (List Event × List WorkflowRunResult × RunAndWaitOutcome)
  | _, _, _, 0 => none
  | i, acc, progress, fuel + 1 =>
    if env.elapsedAt i < timeout then
      let results := env.snapshots i
      let acc' := if returnIntermediateResults then acc ++ [results] else acc
      let progress' := progress ++ [results]
      if isTerminal results.status then
        some ([Event.fetch i], progress',
          if returnIntermediateResults then RunAndWaitOutcome.intermediate acc'
          else RunAndWaitOutcome.single results)
      else
        (runAndWaitLoop returnIntermediateResults timeout pollingInterval
            timeoutSecondsText env (i + 1) acc' progress' fuel).map
          fun r => (Event.fetch i :: Event.sleep pollingInterval :: r.1, r.2)
    else
      some ([], progress,
        RunAndWaitOutcome.timedOut (runAndWaitTimeoutMessage timeoutSecondsText))

/-- `RunWorkflowAndWaitOptions` (types.ts lines 35-40); the `onProgress`
callback is modelled by the recorded progress list. -/
structure RunWorkflowAndWaitOptions extends WorkflowRunOptions where
  pollingInterval : Option Int := none
  timeout : Option Int := none
  returnIntermediateResults : Option Bool := none

/-- `runWorkflowAndWait` (client.ts lines 140-185): defaults applied (lines
144-148), the job submitted through `runWorkflow` with the submission
options copied over (lines 150-159, producing the outgoing payload under
the active session id), then the polling loop started with empty
accumulators. -/
def runWorkflowAndWait (options : RunWorkflowAndWaitOptions)
    (activeSessionId : Option String) (timeoutSecondsText : String)
    (env : PollEnv) (fuel : Nat) :
    List (String × PayloadValue) ×
      Option (List Event × List WorkflowRunResult × RunAndWaitOutcome) :=
  (buildWorkflowRunPayload options.toWorkflowRunOptions activeSessionId,
   runAndWaitLoop (options.returnIntermediateResults.getD false)
     (options.timeout.getD 300000) (options.pollingInterval.getD 5000)
     timeoutSecondsText env 0 [] [] fuel)

/-! ## Session context — src/src/client.ts lines 25, 45-47, 384-406 -/

/-- The `_activeSessionId` field's initializer (client.ts line 25). -/
def initialActiveSessionId : Option String := none

/-- The `sessionId` getter (client.ts lines 45-47). -/
def sessionIdGetter (activeSessionId : Option String) : Option String :=
  activeSessionId

/-- `withBrowserSession` (client.ts lines 384-406), as a transformer of the
`_activeSessionId` slot.  `sessionUuid` is the uuid of the session the
remote create call returned (line 388); `callback` receives the session
uuid and the slot value in force while it runs, and returns its outcome (a
value or a thrown failure) together with the slot value it leaves behind
(a nested call may have changed and restored it); `closeResult` is the
outcome of the forced `closeBrowserSession` teardown call.  The function
mirrors the body exactly: save the previous slot value (line 389), set the
slot to the new uuid (line 390), run the callback (line 393), then in the
`finally` block restore the saved value unconditionally (line 396) and
issue `closeBrowserSession(uuid, force := true)` with any failure swallowed
(lines 400-404) — `closeResult` is therefore never consulted.  Result:
((callback's propagated outcome, final slot value), close calls issued as
(uuid, force) pairs). -/
def withBrowserSession {E T : Type} (sessionUuid : String)
    (callback : String → Option String → Except E T × Option String)
    (closeResult : Except String Unit) (activeSessionId : Option String) :
    (Except E T × Option String) × List (String × Bool) :=
  let previousSessionId := activeSessionId
  let slotDuringCallback := some sessionUuid
  let callbackOutcome := callback sessionUuid slotDuringCallback
  let restoredSlot := previousSessionId
  let closeCalls := [(sessionUuid, true)]
  ((callbackOutcome.1, restoredSlot), closeCalls)

/-- The public client methods other than `withBrowserSession`
(src/src/client.ts). -/
inductive ClientOp where
  | runWorkflowCall (options : WorkflowRunOptions)
  | getWorkflowResultsCall (runId : String)
  | runWorkflowAndWaitCall (options : RunWorkflowAndWaitOptions)
  | waitUntilStateCall (runId targetStatus : String)
    (options : WaitUntilStateOptions)
  | cancelRunCall (runId : String)
  | runTalentCall (options : TalentRunOptions)
  | createBrowserSessionCall
  | listBrowserSessionsCall
  | getBrowserSessionCall (sessionUuid : String)
  | closeBrowserSessionCall (sessionUuid : String) (force : Bool)

/-- The effect of each such method on the `_activeSessionId` slot,
translated arm by arm from src/src/client.ts: no statement in the body of
`runWorkflow` (84-122), `getWorkflowResults` (124-138),
`runWorkflowAndWait` (140-185), `waitUntilState` (187-250), `cancelRun`
(252-266), `runTalent` (268-300), `createBrowserSession` (302-329),
`listBrowserSessions` (331-345), `getBrowserSession` (347-361) or
`closeBrowserSession` (363-382) assigns to `this._activeSessionId` — the
only reads are client.ts lines 92 and 276 — so each arm is the identity on
the slot, whether the underlying request succeeds or throws. -/
def clientOpSlotEffect (op : ClientOp) (activeSessionId : Option String) :
    Option String :=
  match op with
  | ClientOp.runWorkflowCall _ => activeSessionId
  | ClientOp.getWorkflowResultsCall _ => activeSessionId
  | ClientOp.runWorkflowAndWaitCall _ => activeSessionId
  | ClientOp.waitUntilStateCall _ _ _ => activeSessionId
  | ClientOp.cancelRunCall _ => activeSessionId
  | ClientOp.runTalentCall _ => activeSessionId
  | ClientOp.createBrowserSessionCall => activeSessionId
  | ClientOp.listBrowserSessionsCall => activeSessionId
  | ClientOp.getBrowserSessionCall _ => activeSessionId
  | ClientOp.closeBrowserSessionCall _ _ => activeSessionId

/-! ## Helper lemmas about the polling loops -/

theorem fetchCount_append (l₁ l₂ : List Event) :
    fetchCount (l₁ ++ l₂) = fetchCount l₁ + fetchCount l₂ :=
  List.countP_append _ l₁ l₂

theorem sleepCount_append (l₁ l₂ : List Event) :
    sleepCount (l₁ ++ l₂) = sleepCount l₁ + sleepCount l₂ :=
  List.countP_append _ l₁ l₂

theorem fetchCount_pollSeg (p : Int) : ∀ i k, fetchCount (pollSeg p i k) = k := by
  intro i k
  induction k generalizing i with
  | zero => rfl
  | succ k ih =>
    have hk := ih (i + 1)
    simp [pollSeg, fetchCount, List.countP_cons] at hk ⊢
    omega

theorem sleepCount_pollSeg (p : Int) : ∀ i k, sleepCount (pollSeg p i k) = k := by
  intro i k
  induction k generalizing i with
  | zero => rfl
  | succ k ih =>
    have hk := ih (i + 1)
    simp [pollSeg, sleepCount, List.countP_cons] at hk ⊢
    omega

theorem snapWindow_length (env : PollEnv) : ∀ i k, (snapWindow env i k).length = k := by
  intro i k
  induction k generalizing i with
  | zero => rfl
  | succ k ih => simp [snapWindow, ih]

theorem snapWindow_concat (env : PollEnv) :
    ∀ i k, snapWindow env i (k + 1) = snapWindow env i k ++ [env.snapshots (i + k)] := by
  intro i k
  induction k generalizing i with
  | zero => simp [snapWindow]
  | succ k ih =>
    rw [show snapWindow env i (k + 1 + 1) = env.snapshots i :: snapWindow env (i + 1) (k + 1) from rfl,
      ih (i + 1)]
    simp [snapWindow, Nat.add_assoc, Nat.add_comm 1 k]

theorem waitLoop_continue (target : String) (allInstr : Bool) (timeout p : Int)
    (sec : String) (env : PollEnv) (i fuel : Nat)
    (h1 : env.elapsedAt i < timeout)
    (h2 : waitSuccess target allInstr (env.snapshots i) = false)
    (h3 : waitMismatch target (env.snapshots i) = false) :
    waitLoop target allInstr timeout p sec env i (fuel + 1)
      = (waitLoop target allInstr timeout p sec env (i + 1) fuel).map
          (fun r => (Event.fetch i :: Event.sleep p :: r.1, r.2)) := by
  simp [waitLoop, h1, h2, h3]

theorem waitLoop_stop_success (target : String) (allInstr : Bool) (timeout p : Int)
    (sec : String) (env : PollEnv) (i fuel : Nat)
    (h1 : env.elapsedAt i < timeout)
    (h2 : waitSuccess target allInstr (env.snapshots i) = true) :
    waitLoop target allInstr timeout p sec env i (fuel + 1)
      = some ([Event.fetch i], WaitOutcome.success (env.snapshots i)) := by
  simp [waitLoop, h1, h2]

theorem waitLoop_stop_mismatch (target : String) (allInstr : Bool) (timeout p : Int)
    (sec : String) (env : PollEnv) (i fuel : Nat)
    (h1 : env.elapsedAt i < timeout)
    (h2 : waitSuccess target allInstr (env.snapshots i) = false)
    (h3 : waitMismatch target (env.snapshots i) = true) :
    waitLoop target allInstr timeout p sec env i (fuel + 1)
      = some ([Event.fetch i],
          WaitOutcome.terminalMismatch
            (terminalMismatchMessage (env.snapshots i).status target)) := by
  simp [waitLoop, h1, h2, h3]

theorem waitLoop_stop_timeout (target : String) (allInstr : Bool) (timeout p : Int)
    (sec : String) (env : PollEnv) (i fuel : Nat)
    (h1 : ¬ env.elapsedAt i < timeout) :
    waitLoop target allInstr timeout p sec env i (fuel + 1)
      = some ([], WaitOutcome.timedOut (waitTimeoutMessage target allInstr sec)) := by
  simp [waitLoop, h1]

theorem waitLoop_skip (target : String) (allInstr : Bool) (timeout p : Int)
    (sec : String) (env : PollEnv) (k : Nat) :
    ∀ (i fuel : Nat),
      (∀ j, j < k → env.elapsedAt (i + j) < timeout ∧
        waitSuccess target allInstr (env.snapshots (i + j)) = false ∧
        waitMismatch target (env.snapshots (i + j)) = false) →
      waitLoop target allInstr timeout p sec env i (fuel + k)
        = (waitLoop target allInstr timeout p sec env (i + k) fuel).map
            (fun r => (pollSeg p i k ++ r.1, r.2)) := by
  induction k with
  | zero =>
    intro i fuel _
    simp [pollSeg]
  | succ k ih =>
    intro i fuel h
    obtain ⟨h1, h2, h3⟩ := h 0 (Nat.succ_pos k)
    rw [Nat.add_zero] at h1 h2 h3
    rw [show fuel + (k + 1) = (fuel + k) + 1 from rfl,
      waitLoop_continue target allInstr timeout p sec env i (fuel + k) h1 h2 h3,
      ih (i + 1) fuel (fun j hj => by
        have := h (j + 1) (Nat.succ_lt_succ hj)
        rwa [show i + (j + 1) = i + 1 + j by omega] at this)]
    rw [Option.map_map]
    have harr : i + 1 + k = i + (k + 1) := by omega
    rw [harr]
    rfl

theorem runAndWaitLoop_continue (flag : Bool) (timeout p : Int) (sec : String)
    (env : PollEnv) (i fuel : Nat) (acc prog : List WorkflowRunResult)
    (h1 : env.elapsedAt i < timeout)
    (h2 : isTerminal (env.snapshots i).status = false) :
    runAndWaitLoop flag timeout p sec env i acc prog (fuel + 1)
      = (runAndWaitLoop flag timeout p sec env (i + 1)
          (if flag then acc ++ [env.snapshots i] else acc)
          (prog ++ [env.snapshots i]) fuel).map
          (fun r => (Event.fetch i :: Event.sleep p :: r.1, r.2)) := by
  simp [runAndWaitLoop, h1, h2]

theorem runAndWaitLoop_stop_terminal (flag : Bool) (timeout p : Int) (sec : String)
    (env : PollEnv) (i fuel : Nat) (acc prog : List WorkflowRunResult)
    (h1 : env.elapsedAt i < timeout)
    (h2 : isTerminal (env.snapshots i).status = true) :
    runAndWaitLoop flag timeout p sec env i acc prog (fuel + 1)
      = some ([Event.fetch i], prog ++ [env.snapshots i],
          if flag then RunAndWaitOutcome.intermediate (acc ++ [env.snapshots i])
          else RunAndWaitOutcome.single (env.snapshots i)) := by
  cases flag <;> simp [runAndWaitLoop, h1, h2]

theorem runAndWaitLoop_stop_timeout (flag : Bool) (timeout p : Int) (sec : String)
    (env : PollEnv) (i fuel : Nat) (acc prog : List WorkflowRunResult)
    (h1 : ¬ env.elapsedAt i < timeout) :
    runAndWaitLoop flag timeout p sec env i acc prog (fuel + 1)
      = some ([], prog,
          RunAndWaitOutcome.timedOut (runAndWaitTimeoutMessage sec)) := by
  simp [runAndWaitLoop, h1]

theorem runAndWaitLoop_skip (flag : Bool) (timeout p : Int) (sec : String)
    (env : PollEnv) (k : Nat) :
    ∀ (i fuel : Nat) (acc prog : List WorkflowRunResult),
      (∀ j, j < k → env.elapsedAt (i + j) < timeout ∧
        isTerminal (env.snapshots (i + j)).status = false) →
      runAndWaitLoop flag timeout p sec env i acc prog (fuel + k)
        = (runAndWaitLoop flag timeout p sec env (i + k)
            (acc ++ (if flag then snapWindow env i k else []))
            (prog ++ snapWindow env i k) fuel).map
            (fun r => (pollSeg p i k ++ r.1, r.2)) := by
  induction k with
  | zero =>
    intro i fuel acc prog _
    simp [pollSeg, snapWindow]
  | succ k ih =>
    intro i fuel acc prog h
    obtain ⟨h1, h2⟩ := h 0 (Nat.succ_pos k)
    rw [Nat.add_zero] at h1 h2
    rw [show fuel + (k + 1) = (fuel + k) + 1 from rfl,
      runAndWaitLoop_continue flag timeout p sec env i (fuel + k) acc prog h1 h2,
      ih (i + 1) fuel (if flag then acc ++ [env.snapshots i] else acc)
        (prog ++ [env.snapshots i]) (fun j hj => by
          have := h (j + 1) (Nat.succ_lt_succ hj)
          rwa [show i + (j + 1) = i + 1 + j by omega] at this)]
    rw [Option.map_map]
    have harr : i + 1 + k = i + (k + 1) := by omega
    rw [harr]
    have hwin : snapWindow env i (k + 1) = env.snapshots i :: snapWindow env (i + 1) k := rfl
    have hacc : (if flag then acc ++ [env.snapshots i] else acc) ++
        (if flag then snapWindow env (i + 1) k else []) =
        acc ++ (if flag then snapWindow env i (k + 1) else []) := by
      cases flag <;> simp [hwin]
    rw [hacc, hwin]
    simp [Function.comp, List.append_assoc, pollSeg]
    rfl

theorem waitSuccess_iff (target : String) (allInstr : Bool) (r : WorkflowRunResult) :
    waitSuccess target allInstr r = true ↔
      r.status = target ∧
        (allInstr = false ∨ ∃ es, r.executions = some es ∧
          es.getLast?.map AgentExecution.status = some "C") := by
  unfold waitSuccess checkAllExecutionsCompleted AgentExecutionCompleted
  cases allInstr with
  | false => simp
  | true =>
    cases hre : r.executions with
    | none => simp [hre]
    | some es =>
      cases hl : es.getLast? with
      | none => simp [hre, hl]
      | some last => simp [hre, hl]

theorem waitLoop_success_sound (target : String) (allInstr : Bool)
    (timeout p : Int) (sec : String) (env : PollEnv) :
    ∀ (fuel i : Nat) (events : List Event) (r : WorkflowRunResult),
      waitLoop target allInstr timeout p sec env i fuel
        = some (events, WaitOutcome.success r) →
      ∃ k, r = env.snapshots k ∧ waitSuccess target allInstr r = true := by
  intro fuel
  induction fuel with
  | zero => intro i events r h; simp [waitLoop] at h
  | succ n ih =>
    intro i events r h
    by_cases h1 : env.elapsedAt i < timeout
    · by_cases h2 : waitSuccess target allInstr (env.snapshots i) = true
      · rw [waitLoop_stop_success target allInstr timeout p sec env i n h1 h2] at h
        simp only [Option.some.injEq, Prod.mk.injEq, WaitOutcome.success.injEq] at h
        exact ⟨i, h.2.symm, h.2 ▸ h2⟩
      · rw [Bool.not_eq_true] at h2
        by_cases h3 : waitMismatch target (env.snapshots i) = true
        · rw [waitLoop_stop_mismatch target allInstr timeout p sec env i n h1 h2 h3] at h
          simp at h
        · rw [Bool.not_eq_true] at h3
          rw [waitLoop_continue target allInstr timeout p sec env i n h1 h2 h3] at h
          obtain ⟨⟨events', o⟩, hrec, heq⟩ := Option.map_eq_some'.mp h
          simp only [Prod.mk.injEq] at heq
          exact ih (i + 1) events' r (heq.2 ▸ hrec)
    · rw [waitLoop_stop_timeout target allInstr timeout p sec env i n h1] at h
      simp at h

/-! ## Claim theorems -/

/-- C1: in `waitUntilState`, a fetched snapshot whose status is terminal
(member of C, F, X) and differs from the target makes the call fail on that
very fetch with the terminal-mismatch error naming both display names:
the run stops with `i + 1` fetches and `i` polling sleeps — no further
fetch and no further sleep after the mismatching one. -/
theorem claim_C1_terminal_mismatch_fails_immediately (target : String)
    (allInstr : Bool) (timeout p : Int) (sec : String) (env : PollEnv)
    (i fuel : Nat)
    (hfuel : i < fuel)
    (hbudget : ∀ j, j ≤ i → env.elapsedAt j < timeout)
    (hbefore : ∀ j, j < i →
      waitSuccess target allInstr (env.snapshots j) = false ∧
      waitMismatch target (env.snapshots j) = false)
    (hterm : isTerminal (env.snapshots i).status = true)
    (hne : (env.snapshots i).status ≠ target) :
    waitLoop target allInstr timeout p sec env 0 fuel
      = some (pollSeg p 0 i ++ [Event.fetch i],
          WaitOutcome.terminalMismatch
            (terminalMismatchMessage (env.snapshots i).status target))
    ∧ fetchCount (pollSeg p 0 i ++ [Event.fetch i]) = i + 1
    ∧ sleepCount (pollSeg p 0 i ++ [Event.fetch i]) = i
    ∧ terminalMismatchMessage (env.snapshots i).status target
        = "Workflow run reached terminal status '"
          ++ getStatusName (env.snapshots i).status
          ++ "' before reaching target status '"
          ++ getStatusName target ++ "'" := by
  have hs : waitSuccess target allInstr (env.snapshots i) = false := by
    unfold waitSuccess
    simp [beq_eq_false_iff_ne.mpr hne]
  have hm : waitMismatch target (env.snapshots i) = true := by
    unfold waitMismatch
    simp [hterm, hne]
  obtain ⟨f, hf⟩ : ∃ f, fuel = (f + 1) + i := ⟨fuel - i - 1, by omega⟩
  subst hf
  refine ⟨?_, ?_, ?_, rfl⟩
  · rw [waitLoop_skip target allInstr timeout p sec env i 0 (f + 1)
        (fun j hj => by
          rw [Nat.zero_add]
          exact ⟨hbudget j (le_of_lt hj), (hbefore j hj).1, (hbefore j hj).2⟩),
      Nat.zero_add,
      waitLoop_stop_mismatch target allInstr timeout p sec env i f
        (hbudget i le_rfl) hs hm]
    rfl
  · rw [fetchCount_append, fetchCount_pollSeg]
    rfl
  · rw [sleepCount_append, sleepCount_pollSeg]
    rfl

/-- C2: `waitUntilState` succeeds exactly on a fetched snapshot whose
status equals the target and whose steps requirement holds
(`allInstructionsExecuted` unset, or the execution list is non-empty with
last element Completed), returning that snapshot; a snapshot whose status
equals the target but whose last execution step is not Completed makes the
loop poll on (one more sleep, then the next fetch) when
`allInstructionsExecuted` is set. -/
theorem claim_C2_success_condition (target : String) (allInstr : Bool)
    (timeout p : Int) (sec : String) (env : PollEnv) :
    (∀ i fuel, i < fuel →
      (∀ j, j ≤ i → env.elapsedAt j < timeout) →
      (∀ j, j < i → waitSuccess target allInstr (env.snapshots j) = false ∧
        waitMismatch target (env.snapshots j) = false) →
      (env.snapshots i).status = target →
      (allInstr = false ∨ ∃ es, (env.snapshots i).executions = some es ∧
        es.getLast?.map AgentExecution.status = some "C") →
      waitLoop target allInstr timeout p sec env 0 fuel
        = some (pollSeg p 0 i ++ [Event.fetch i],
            WaitOutcome.success (env.snapshots i)))
  ∧ (∀ fuel events r,
      waitLoop target allInstr timeout p sec env 0 fuel
        = some (events, WaitOutcome.success r) →
      ∃ k, r = env.snapshots k ∧ r.status = target ∧
        (allInstr = false ∨ ∃ es, r.executions = some es ∧
          es.getLast?.map AgentExecution.status = some "C"))
  ∧ (∀ i fuel, env.elapsedAt i < timeout →
      (env.snapshots i).status = target →
      allInstr = true →
      checkAllExecutionsCompleted (env.snapshots i) = false →
      waitLoop target allInstr timeout p sec env i (fuel + 1)
        = (waitLoop target allInstr timeout p sec env (i + 1) fuel).map
            (fun r => (Event.fetch i :: Event.sleep p :: r.1, r.2))) := by
  refine ⟨?_, ?_, ?_⟩
  · intro i fuel hfuel hbudget hbefore hstat hsteps
    have hs : waitSuccess target allInstr (env.snapshots i) = true :=
      (waitSuccess_iff target allInstr (env.snapshots i)).mpr ⟨hstat, hsteps⟩
    obtain ⟨f, hf⟩ : ∃ f, fuel = (f + 1) + i := ⟨fuel - i - 1, by omega⟩
    subst hf
    rw [waitLoop_skip target allInstr timeout p sec env i 0 (f + 1)
        (fun j hj => by
          rw [Nat.zero_add]
          exact ⟨hbudget j (le_of_lt hj), (hbefore j hj).1, (hbefore j hj).2⟩),
      Nat.zero_add,
      waitLoop_stop_success target allInstr timeout p sec env i f
        (hbudget i le_rfl) hs]
    rfl
  · intro fuel events r h
    obtain ⟨k, hk, hs⟩ :=
      waitLoop_success_sound target allInstr timeout p sec env fuel 0 events r h
    obtain ⟨hstat, hsteps⟩ := (waitSuccess_iff target allInstr r).mp hs
    exact ⟨k, hk, hstat, hsteps⟩
  · intro i fuel h1 hstat hinstr hcheck
    have hs : waitSuccess target allInstr (env.snapshots i) = false := by
      unfold waitSuccess
      simp [hinstr, hcheck]
    have hm : waitMismatch target (env.snapshots i) = false := by
      unfold waitMismatch
      simp [hstat]
    exact waitLoop_continue target allInstr timeout p sec env i fuel h1 hs hm

/-- C3: `runWorkflowAndWait` submits the job (the outgoing payload is the
first component), then polls; the first fetched snapshot with terminal
status — Completed, Failed or Cancelled alike — ends the run normally with
the final snapshot alone, or, when `returnIntermediateResults` is set, the
ordered sequence of every snapshot fetched, whose length equals the number
of fetches performed and whose last element is the terminal snapshot; the
middle component lists the snapshots passed to `onProgress`, which is every
fetched snapshot including the final one. -/
theorem claim_C3_run_and_wait_terminal_returns (opts : RunWorkflowAndWaitOptions)
    (active : Option String) (sec : String) (env : PollEnv) (i fuel : Nat)
    (hfuel : i < fuel)
    (hbudget : ∀ j, j ≤ i → env.elapsedAt j < opts.timeout.getD 300000)
    (hbefore : ∀ j, j < i → isTerminal (env.snapshots j).status = false)
    (hterm : isTerminal (env.snapshots i).status = true) :
    runWorkflowAndWait opts active sec env fuel
      = (buildWorkflowRunPayload opts.toWorkflowRunOptions active,
         some (pollSeg (opts.pollingInterval.getD 5000) 0 i ++ [Event.fetch i],
           snapWindow env 0 (i + 1),
           if opts.returnIntermediateResults.getD false
           then RunAndWaitOutcome.intermediate (snapWindow env 0 (i + 1))
           else RunAndWaitOutcome.single (env.snapshots i)))
    ∧ (snapWindow env 0 (i + 1)).length
        = fetchCount (pollSeg (opts.pollingInterval.getD 5000) 0 i ++ [Event.fetch i])
    ∧ (snapWindow env 0 (i + 1)).getLast? = some (env.snapshots i) := by
  have hwin : snapWindow env 0 (i + 1) = snapWindow env 0 i ++ [env.snapshots i] := by
    rw [snapWindow_concat env 0 i, Nat.zero_add]
  refine ⟨?_, ?_, ?_⟩
  · unfold runWorkflowAndWait
    obtain ⟨f, hf⟩ : ∃ f, fuel = (f + 1) + i := ⟨fuel - i - 1, by omega⟩
    subst hf
    rw [runAndWaitLoop_skip (opts.returnIntermediateResults.getD false)
        (opts.timeout.getD 300000) (opts.pollingInterval.getD 5000) sec env i
        0 (f + 1) [] [] (fun j hj => by
          rw [Nat.zero_add]
          exact ⟨hbudget j (le_of_lt hj), hbefore j hj⟩),
      Nat.zero_add, List.nil_append,
      runAndWaitLoop_stop_terminal (opts.returnIntermediateResults.getD false)
        (opts.timeout.getD 300000) (opts.pollingInterval.getD 5000) sec env i f
        _ _ (hbudget i le_rfl) hterm]
    cases hflag : opts.returnIntermediateResults.getD false <;>
      simp [hflag, hwin]
  · rw [snapWindow_length, fetchCount_append, fetchCount_pollSeg]
    rfl
  · rw [hwin, List.getLast?_concat]

/-- C6: when no fetch before check `i` stops the loop and the elapsed time
at check `i` has reached the timeout, `waitUntilState` fails there with the
timeout error, whose message names the target status display name and — when
`allInstructionsExecuted` is set — the step-completion requirement; the
loop performed exactly `i` fetches; the loop's run is independent of
`minWaitTime` (that sleep precedes the recording of the start time, so it
never counts against the timeout budget), and the pre-start sleep happens
exactly when `minWaitTime` is positive. -/
theorem claim_C6_timeout_error (target : String) (opts : WaitUntilStateOptions)
    (sec : String) (env : PollEnv) (i fuel : Nat) (m : Int)
    (hfuel : i < fuel)
    (hbefore : ∀ j, j < i →
      env.elapsedAt j < opts.timeout.getD 60000 ∧
      waitSuccess target (opts.allInstructionsExecuted.getD false)
        (env.snapshots j) = false ∧
      waitMismatch target (env.snapshots j) = false)
    (htimeout : ¬ env.elapsedAt i < opts.timeout.getD 60000) :
    (waitUntilState target opts sec env fuel).run
      = some (pollSeg (opts.pollingInterval.getD 2000) 0 i,
          WaitOutcome.timedOut
            (waitTimeoutMessage target
              (opts.allInstructionsExecuted.getD false) sec))
    ∧ waitTimeoutMessage target (opts.allInstructionsExecuted.getD false) sec
        = "Workflow run did not reach status '" ++ getStatusName target ++ "'"
          ++ (if opts.allInstructionsExecuted.getD false
              then " and all instructions executed" else "")
          ++ " within " ++ sec ++ " seconds"
    ∧ fetchCount (pollSeg (opts.pollingInterval.getD 2000) 0 i) = i
    ∧ sleepCount (pollSeg (opts.pollingInterval.getD 2000) 0 i) = i
    ∧ (waitUntilState target { opts with minWaitTime := some m } sec env fuel).run
        = (waitUntilState target opts sec env fuel).run
    ∧ (waitUntilState target opts sec env fuel).preSleeps
        = (if opts.minWaitTime.getD 0 > 0 then [opts.minWaitTime.getD 0] else []) := by
  refine ⟨?_, ?_, fetchCount_pollSeg _ 0 i, sleepCount_pollSeg _ 0 i, rfl, rfl⟩
  · show waitLoop target (opts.allInstructionsExecuted.getD false)
      (opts.timeout.getD 60000) (opts.pollingInterval.getD 2000) sec env 0 fuel = _
    obtain ⟨f, hf⟩ : ∃ f, fuel = (f + 1) + i := ⟨fuel - i - 1, by omega⟩
    subst hf
    rw [waitLoop_skip target (opts.allInstructionsExecuted.getD false)
        (opts.timeout.getD 60000) (opts.pollingInterval.getD 2000) sec env i
        0 (f + 1) (fun j hj => by rw [Nat.zero_add]; exact hbefore j hj),
      Nat.zero_add,
      waitLoop_stop_timeout target (opts.allInstructionsExecuted.getD false)
        (opts.timeout.getD 60000) (opts.pollingInterval.getD 2000) sec env i f
        htimeout]
    simp
  · unfold waitTimeoutMessage timeoutConditionMsg
    cases opts.allInstructionsExecuted.getD false <;>
      simp [String.append_assoc] <;>
      rw [← String.append_assoc] <;> rfl

/-- C9: with a non-positive `timeout` option, both polling operations
perform zero fetches and fail with their timeout error even though the
very first snapshot may already be at the target or terminal:
`waitUntilState`'s loop exits before any fetch (empty event list), and
`runWorkflowAndWait` still produces the submission payload but its loop
fetches nothing and records no progress before the timeout error. -/
theorem claim_C9_nonpositive_timeout (target : String)
    (opts : WaitUntilStateOptions) (ropts : RunWorkflowAndWaitOptions)
    (active : Option String) (sec : String) (env : PollEnv) (t : Int)
    (fuel : Nat)
    (h0 : 0 ≤ env.elapsedAt 0)
    (ht : t ≤ 0)
    (hwt : opts.timeout = some t)
    (hrt : ropts.timeout = some t) :
    (waitUntilState target opts sec env (fuel + 1)).run
      = some ([], WaitOutcome.timedOut
          (waitTimeoutMessage target
            (opts.allInstructionsExecuted.getD false) sec))
    ∧ runWorkflowAndWait ropts active sec env (fuel + 1)
        = (buildWorkflowRunPayload ropts.toWorkflowRunOptions active,
           some ([], [], RunAndWaitOutcome.timedOut (runAndWaitTimeoutMessage sec))) := by
  constructor
  · show waitLoop target (opts.allInstructionsExecuted.getD false)
      (opts.timeout.getD 60000) (opts.pollingInterval.getD 2000) sec env 0
      (fuel + 1) = _
    rw [waitLoop_stop_timeout]
    rw [hwt]
    show ¬ env.elapsedAt 0 < t
    omega
  · unfold runWorkflowAndWait
    rw [runAndWaitLoop_stop_timeout]
    rw [hrt]
    show ¬ env.elapsedAt 0 < t
    omega

/-- C4: for every callback outcome — normal return or thrown failure (the
`Except` value) — `withBrowserSession` runs the callback with the created
session's uuid as the active session, restores the active-session slot to
its pre-call value afterwards (whatever the callback left in the slot),
issues exactly one forced close of the created session, swallows any close
failure (the output is the same for any close outcome), and propagates the
callback's outcome unchanged; instantiating the pre-call slot with an outer
session's id gives the nested-call behaviour: the inner callback sees its
own id as active, and the outer id is active again right after it. -/
theorem claim_C4_with_session_cleanup {E T : Type} (sessionUuid : String)
    (callback : String → Option String → Except E T × Option String)
    (closeResult closeResult' : Except String Unit)
    (activeSessionId : Option String) (outerUuid : String) :
    (withBrowserSession sessionUuid callback closeResult activeSessionId).1.2
        = activeSessionId
    ∧ (withBrowserSession sessionUuid callback closeResult activeSessionId).2
        = [(sessionUuid, true)]
    ∧ (withBrowserSession sessionUuid callback closeResult activeSessionId).1.1
        = (callback sessionUuid (some sessionUuid)).1
    ∧ withBrowserSession sessionUuid callback closeResult activeSessionId
        = withBrowserSession sessionUuid callback closeResult' activeSessionId
    ∧ sessionIdGetter
        (withBrowserSession sessionUuid callback closeResult
          (some outerUuid)).1.2 = some outerUuid :=
  ⟨rfl, rfl, rfl, rfl, rfl⟩

/-- C7: the status model is a pure total lookup — the five wire codes map
to their display names, any unknown code maps to itself, the terminal set
is exactly C, F, X, and P, R are non-terminal. -/
theorem claim_C7_status_model :
    getStatusName "P" = "pending" ∧ getStatusName "R" = "running" ∧
    getStatusName "C" = "completed" ∧ getStatusName "F" = "failed" ∧
    getStatusName "X" = "cancelled" ∧
    (∀ c : String, c ∉ ["P", "R", "C", "F", "X"] → getStatusName c = c) ∧
    TERMINAL_STATUSES = ["C", "F", "X"] ∧
    isTerminal "C" = true ∧ isTerminal "F" = true ∧ isTerminal "X" = true ∧
    isTerminal "P" = false ∧ isTerminal "R" = false := by
  refine ⟨rfl, rfl, rfl, rfl, rfl, ?_, rfl, rfl, rfl, rfl, rfl, rfl⟩
  intro c hc
  simp only [List.mem_cons, List.not_mem_nil, or_false, not_or] at hc
  obtain ⟨h1, h2, h3, h4, h5⟩ := hc
  simp [getStatusName, STATUS_NAMES, List.lookup,
    beq_eq_false_iff_ne.mpr h1, beq_eq_false_iff_ne.mpr h2,
    beq_eq_false_iff_ne.mpr h3, beq_eq_false_iff_ne.mpr h4,
    beq_eq_false_iff_ne.mpr h5]

/-- C10: the active-session slot is mutated only by `withBrowserSession`:
every other public method leaves `_activeSessionId` unchanged whether it
succeeds or throws, so after any sequence of such calls on a freshly
constructed client the `sessionId` getter still returns the initial value
`none`. -/
theorem claim_C10_slot_only_with_session :
    (∀ (op : ClientOp) (s : Option String), clientOpSlotEffect op s = s)
    ∧ sessionIdGetter initialActiveSessionId = none
    ∧ (∀ ops : List ClientOp,
        sessionIdGetter
          (ops.foldl (fun s op => clientOpSlotEffect op s)
            initialActiveSessionId) = none) := by
  have heff : ∀ (op : ClientOp) (s : Option String), clientOpSlotEffect op s = s := by
    intro op s
    cases op <;> rfl
  refine ⟨heff, rfl, ?_⟩
  intro ops
  induction ops with
  | nil => rfl
  | cons op ops ih =>
    show sessionIdGetter
      (ops.foldl (fun s op => clientOpSlotEffect op s)
        (clientOpSlotEffect op initialActiveSessionId)) = none
    rw [heff op initialActiveSessionId]
    exact ih

/-- C8: for every field of the request and response documents the naming
translation is bidirectional — the source's `_toCamelCase` sends the wire
name to the in-memory name, the systematic snake_case mapping sends the
in-memory name to the wire name, and both round trips are the identity. -/
theorem claim_C8_field_name_round_trip (q : String × String)
    (hq : q ∈ fieldNamePairs) :
    toCamelCase q.2 = q.1 ∧ toSnakeCase q.1 = q.2 ∧
    toCamelCase (toSnakeCase q.1) = q.1 ∧ toSnakeCase (toCamelCase q.2) = q.2 := by
  have h : ∀ q ∈ fieldNamePairs,
      toCamelCase q.2 = q.1 ∧ toSnakeCase q.1 = q.2 ∧
      toCamelCase (toSnakeCase q.1) = q.1 ∧ toSnakeCase (toCamelCase q.2) = q.2 := by
    decide
  exact h q hq

/-- Closed instance of C8's round trip at the `browserSessionId` /
`browser_session_id` pair. -/
theorem claim_C8_field_name_round_trip_witness :
    toCamelCase "browser_session_id" = "browserSessionId" ∧
    toSnakeCase "browserSessionId" = "browser_session_id" ∧
    toCamelCase (toSnakeCase "browserSessionId") = "browserSessionId" ∧
    toSnakeCase (toCamelCase "browser_session_id") = "browser_session_id" :=
  claim_C8_field_name_round_trip ("browserSessionId", "browser_session_id")
    (by decide)

/-! ## Lookup lemmas for the payload builders -/

theorem lookup_append {β : Type} (k : String) (l₁ l₂ : List (String × β)) :
    (l₁ ++ l₂).lookup k = ((l₁.lookup k).orElse fun _ => l₂.lookup k) := by
  induction l₁ with
  | nil => simp [List.lookup]
  | cons a l ih =>
    obtain ⟨a1, a2⟩ := a
    cases h : k == a1 <;> simp [List.lookup_cons, h, ih]

theorem lookup_optField_ne {α : Type} (key k : String) (f : α → PayloadValue)
    (o : Option α) (h : (k == key) = false) :
    (optField key f o).lookup k = none := by
  cases o <;> simp [optField, List.lookup, List.lookup_cons, h]

theorem lookup_optField_eq {α : Type} (key : String) (f : α → PayloadValue)
    (o : Option α) :
    (optField key f o).lookup key = o.map f := by
  cases o <;> simp [optField, List.lookup, List.lookup_cons]

theorem mem_optField_key {α : Type} {key k : String} {v : PayloadValue}
    {f : α → PayloadValue} {o : Option α}
    (h : (k, v) ∈ optField key f o) : k = key := by
  cases o with
  | none => simp [optField] at h
  | some x =>
    simp [optField] at h
    exact h.1

/-- C5: in both `runWorkflow` and `runTalent` payloads the
`browser_session_id` field equals the explicit `browserSessionId` option
when supplied (even when an active session is set — the explicit override
wins), else the active-session slot's value when set, and the key is absent
from the payload when both are absent. -/
theorem claim_C5_session_id_injection (wopts : WorkflowRunOptions)
    (topts : TalentRunOptions) (active : Option String) :
    (buildWorkflowRunPayload wopts active).lookup "browser_session_id"
      = (wopts.browserSessionId.orElse fun _ => active).map PayloadValue.strVal
    ∧ (buildTalentRunPayload topts active).lookup "browser_session_id"
      = (topts.browserSessionId.orElse fun _ => active).map PayloadValue.strVal
    ∧ (wopts.browserSessionId = none → active = none →
        ∀ v, ("browser_session_id", v) ∉ buildWorkflowRunPayload wopts active)
    ∧ (topts.browserSessionId = none → active = none →
        ∀ v, ("browser_session_id", v) ∉ buildTalentRunPayload topts active) := by
  refine ⟨?_, ?_, ?_, ?_⟩
  · cases hb : wopts.browserSessionId <;> cases ha : active <;>
      simp [buildWorkflowRunPayload, lookup_append, lookup_optField_eq,
        lookup_optField_ne, Option.orElse, hb, ha]
  · cases hb : topts.browserSessionId <;> cases ha : active <;>
      simp [buildTalentRunPayload, lookup_append, lookup_optField_eq,
        lookup_optField_ne, Option.orElse, hb, ha]
  · intro hb ha v hmem
    simp only [buildWorkflowRunPayload, hb, ha, List.mem_append] at hmem
    rcases hmem with ((((((h | h) | h) | h) | h) | h) | h) | h <;>
      first
        | exact absurd (mem_optField_key h) (by decide)
        | simp [optField, Option.orElse] at h
  · intro hb ha v hmem
    simp only [buildTalentRunPayload, hb, ha, List.mem_append] at hmem
    rcases hmem with (((h | h) | h) | h) | h <;>
      first
        | exact absurd (mem_optField_key h) (by decide)
        | simp [optField, Option.orElse] at h

/-! ## Concrete environments for the witnesses -/

/-- A pending snapshot, as `GET /v1/runs/{id}/results` could return it. -/
def pendingSnapshot : WorkflowRunResult :=
  { workflowId := "wf-1", runId := "run-1", status := "P" }

/-- A failed snapshot. -/
def failedSnapshot : WorkflowRunResult :=
  { workflowId := "wf-1", runId := "run-1", status := "F" }

/-- Fetches see pending then failed; each check is 100 ms after the previous. -/
def envPendingThenFailed : PollEnv :=
  { snapshots := fun i => if i = 0 then pendingSnapshot else failedSnapshot,
    elapsedAt := fun i => Int.ofNat (100 * i) }

/-- Fetches always see pending; each check is 100 ms after the previous. -/
def envAlwaysPending : PollEnv :=
  { snapshots := fun _ => pendingSnapshot,
    elapsedAt := fun i => Int.ofNat (100 * i) }

/-- A `waitUntilState` option set with a 250 ms timeout and 100 ms polling. -/
def shortWaitOptions : WaitUntilStateOptions :=
  { timeout := some 250, pollingInterval := some 100 }

/-- A `waitUntilState` option set with a zero timeout. -/
def zeroTimeoutWaitOptions : WaitUntilStateOptions := { timeout := some 0 }

/-- A `runWorkflowAndWait` option set with a zero timeout. -/
def zeroTimeoutRunOptions : RunWorkflowAndWaitOptions := { timeout := some 0 }

/-- Closed instance of C1: target completed, fetches see pending then
failed — the run stops at the second fetch with the terminal-mismatch
error, after 2 fetches and 1 sleep. -/
theorem claim_C1_witness_instance :
    waitLoop "C" false 60000 2000 "60" envPendingThenFailed 0 10
      = some (pollSeg 2000 0 1 ++ [Event.fetch 1],
          WaitOutcome.terminalMismatch
            (terminalMismatchMessage
              (envPendingThenFailed.snapshots 1).status "C"))
    ∧ fetchCount (pollSeg 2000 0 1 ++ [Event.fetch 1]) = 1 + 1
    ∧ sleepCount (pollSeg 2000 0 1 ++ [Event.fetch 1]) = 1
    ∧ terminalMismatchMessage (envPendingThenFailed.snapshots 1).status "C"
        = "Workflow run reached terminal status '"
          ++ getStatusName (envPendingThenFailed.snapshots 1).status
          ++ "' before reaching target status '"
          ++ getStatusName "C" ++ "'" :=
  claim_C1_terminal_mismatch_fails_immediately "C" false 60000 2000 "60"
    envPendingThenFailed 1 10 (by decide) (by decide) (by decide)
    (by decide) (by decide)

/-- Closed instance of C3: default options, fetches see pending then
failed — the run returns normally at the second fetch with the failed
snapshot, after fetching twice, both snapshots reported to onProgress. -/
theorem claim_C3_witness_instance :
    runWorkflowAndWait {} none "300" envPendingThenFailed 10
      = ([],
         some (pollSeg 5000 0 1 ++ [Event.fetch 1],
           snapWindow envPendingThenFailed 0 2,
           RunAndWaitOutcome.single (envPendingThenFailed.snapshots 1)))
    ∧ (snapWindow envPendingThenFailed 0 2).length
        = fetchCount (pollSeg 5000 0 1 ++ [Event.fetch 1])
    ∧ (snapWindow envPendingThenFailed 0 2).getLast?
        = some (envPendingThenFailed.snapshots 1) :=
  claim_C3_run_and_wait_terminal_returns {} none "300" envPendingThenFailed
    1 10 (by decide) (by decide) (by decide) (by decide)

/-- Closed instance of C6: 250 ms timeout, 100 ms polling, always pending —
the run times out at the fourth check after exactly 3 fetches. -/
theorem claim_C6_witness_instance :
    (waitUntilState "C" shortWaitOptions "0.25" envAlwaysPending 10).run
      = some (pollSeg 100 0 3,
          WaitOutcome.timedOut (waitTimeoutMessage "C" false "0.25"))
    ∧ waitTimeoutMessage "C" false "0.25"
        = "Workflow run did not reach status '" ++ getStatusName "C" ++ "'"
          ++ (if false then " and all instructions executed" else "")
          ++ " within " ++ "0.25" ++ " seconds"
    ∧ fetchCount (pollSeg 100 0 3) = 3
    ∧ sleepCount (pollSeg 100 0 3) = 3
    ∧ (waitUntilState "C" { shortWaitOptions with minWaitTime := some 500 }
        "0.25" envAlwaysPending 10).run
        = (waitUntilState "C" shortWaitOptions "0.25" envAlwaysPending 10).run
    ∧ (waitUntilState "C" shortWaitOptions "0.25" envAlwaysPending 10).preSleeps
        = (if shortWaitOptions.minWaitTime.getD 0 > 0
            then [shortWaitOptions.minWaitTime.getD 0] else []) :=
  claim_C6_timeout_error "C" shortWaitOptions "0.25" envAlwaysPending 3 10 500
    (by decide) (by decide) (by decide)

/-- Closed instance of C9: zero timeout — `waitUntilState` times out with
no fetch, and `runWorkflowAndWait` still produces the (empty-options)
submission payload but fetches nothing. -/
theorem claim_C9_witness_instance :
    (waitUntilState "C" zeroTimeoutWaitOptions "0" envPendingThenFailed 5).run
      = some ([], WaitOutcome.timedOut (waitTimeoutMessage "C" false "0"))
    ∧ runWorkflowAndWait zeroTimeoutRunOptions none "0" envPendingThenFailed 5
        = ([], some ([], [],
            RunAndWaitOutcome.timedOut (runAndWaitTimeoutMessage "0"))) :=
  claim_C9_nonpositive_timeout "C" zeroTimeoutWaitOptions zeroTimeoutRunOptions
    none "0" envPendingThenFailed 0 4 (by decide) (by decide) rfl rfl

end Witrium
